import Mathlib

set_option maxRecDepth 40000

/-!
Verification of the a8mini-camera-rs gimbal-camera control client.

Shallow embedding of:
  * the canned command table and CRC-16 lookup table (src/src/constants.rs),
  * the CRC-16 checksum fold and the frame encoder (the repository's
    checksum/control modules, modelled from the design document where the
    files are not present under src/),
  * the response post-processing of get_attitude_information,
    get_firmware_version and stream_attitude_data (src/src/lib.rs),
  * the transport operations send_command_blind and send_command
    (src/src/lib.rs), with socket outcomes made explicit,
  * the LogAttitudeStream polling loop of src/src/main.rs,
  * the bounded reconnect loop connect_yapping (src/src/lib.rs).

Bytes are Nat values below 256; machine integers are Nat/Int with explicit
reduction modulo 256 / 65536 where the code relies on wrapping.
-/

/-- The 256-entry CRC-16 lookup table, transcribed from `CRC16_TAB` in
src/src/constants.rs. -/
def CRC16_TAB : List Nat := [
  0x0,0x1021,0x2042,0x3063,0x4084,0x50a5,0x60c6,0x70e7,
  0x8108,0x9129,0xa14a,0xb16b,0xc18c,0xd1ad,0xe1ce,0xf1ef,
  0x1231,0x210,0x3273,0x2252,0x52b5,0x4294,0x72f7,0x62d6,
  0x9339,0x8318,0xb37b,0xa35a,0xd3bd,0xc39c,0xf3ff,0xe3de,
  0x2462,0x3443,0x420,0x1401,0x64e6,0x74c7,0x44a4,0x5485,
  0xa56a,0xb54b,0x8528,0x9509,0xe5ee,0xf5cf,0xc5ac,0xd58d,
  0x3653,0x2672,0x1611,0x630,0x76d7,0x66f6,0x5695,0x46b4,
  0xb75b,0xa77a,0x9719,0x8738,0xf7df,0xe7fe,0xd79d,0xc7bc,
  0x48c4,0x58e5,0x6886,0x78a7,0x840,0x1861,0x2802,0x3823,
  0xc9cc,0xd9ed,0xe98e,0xf9af,0x8948,0x9969,0xa90a,0xb92b,
  0x5af5,0x4ad4,0x7ab7,0x6a96,0x1a71,0xa50,0x3a33,0x2a12,
  0xdbfd,0xcbdc,0xfbbf,0xeb9e,0x9b79,0x8b58,0xbb3b,0xab1a,
  0x6ca6,0x7c87,0x4ce4,0x5cc5,0x2c22,0x3c03,0xc60,0x1c41,
  0xedae,0xfd8f,0xcdec,0xddcd,0xad2a,0xbd0b,0x8d68,0x9d49,
  0x7e97,0x6eb6,0x5ed5,0x4ef4,0x3e13,0x2e32,0x1e51,0xe70,
  0xff9f,0xefbe,0xdfdd,0xcffc,0xbf1b,0xaf3a,0x9f59,0x8f78,
  0x9188,0x81a9,0xb1ca,0xa1eb,0xd10c,0xc12d,0xf14e,0xe16f,
  0x1080,0xa1,0x30c2,0x20e3,0x5004,0x4025,0x7046,0x6067,
  0x83b9,0x9398,0xa3fb,0xb3da,0xc33d,0xd31c,0xe37f,0xf35e,
  0x2b1,0x1290,0x22f3,0x32d2,0x4235,0x5214,0x6277,0x7256,
  0xb5ea,0xa5cb,0x95a8,0x8589,0xf56e,0xe54f,0xd52c,0xc50d,
  0x34e2,0x24c3,0x14a0,0x481,0x7466,0x6447,0x5424,0x4405,
  0xa7db,0xb7fa,0x8799,0x97b8,0xe75f,0xf77e,0xc71d,0xd73c,
  0x26d3,0x36f2,0x691,0x16b0,0x6657,0x7676,0x4615,0x5634,
  0xd94c,0xc96d,0xf90e,0xe92f,0x99c8,0x89e9,0xb98a,0xa9ab,
  0x5844,0x4865,0x7806,0x6827,0x18c0,0x8e1,0x3882,0x28a3,
  0xcb7d,0xdb5c,0xeb3f,0xfb1e,0x8bf9,0x9bd8,0xabbb,0xbb9a,
  0x4a75,0x5a54,0x6a37,0x7a16,0xaf1,0x1ad0,0x2ab3,0x3a92,
  0xfd2e,0xed0f,0xdd6c,0xcd4d,0xbdaa,0xad8b,0x9de8,0x8dc9,
  0x7c26,0x6c07,0x5c64,0x4c45,0x3ca2,0x2c83,0x1ce0,0xcc1,
  0xef1f,0xff3e,0xcf5d,0xdf7c,0xaf9b,0xbfba,0x8fd9,0x9ff8,
  0x6e17,0x7e36,0x4e55,0x5e74,0x2e93,0x3eb2,0xed1,0x1ef0]

/-- Modelled from the spec: the checksum module (`pub mod checksum` of
src/src/lib.rs) is not present under src/.  Design document section 4.1: for
each input byte the 16-bit accumulator is updated by a table lookup on
`high_byte(accumulator) XOR byte`, then shifted; the table is `CRC16_TAB`
of src/src/constants.rs.  One step of the fold. -/
def crc16Step (acc b : Nat) : Nat :=
  (((acc % 65536) <<< 8) ^^^ CRC16_TAB.getD ((((acc >>> 8) % 256) ^^^ (b % 256)) % 256) 0)
    % 65536

/-- Modelled from the spec: section 4.1, `checksum(bytes) -> u16`,
initial accumulator 0, folding `crc16Step` over the byte sequence. -/
def checksum (bytes : List Nat) : Nat := bytes.foldl crc16Step 0

/-- The canned command frames, transcribed from `COMMANDS` in
src/src/constants.rs.  Entries are i32 literals, some negative, exactly as
in the source. -/
def COMMANDS : List (List Int) := [
  [0x55,0x66,0x01,0x01,0x00,0x00,0x00,0x08,0x01,0xd1,0x12],
  [0x55,0x66,0x01,0x02,0x00,0x00,0x00,0x07,0x00,0x2D,0x3e,0xd1],
  [0x55,0x66,0x01,0x02,0x00,0x00,0x00,0x07,0x00,-0x2D,0xef,0xdf],
  [0x55,0x66,0x01,0x02,0x00,0x00,0x00,0x07,-0x2D,0x00,0x85,0x64],
  [0x55,0x66,0x01,0x02,0x00,0x00,0x00,0x07,0x2D,0x00,0x4b,0x54],
  [0x55,0x66,0x01,0x02,0x00,0x00,0x00,0x07,0x00,0x00,0xf1,0x24],
  [0x55,0x66,0x01,0x01,0x00,0x00,0x00,0x05,0x01,0x8d,0x64],
  [0x55,0x66,0x01,0x01,0x00,0x00,0x00,0x05,0xFF,0x5c,0x6a],
  [0x55,0x66,0x01,0x02,0x00,0x01,0x00,0x0F,0x04,0x05,0x60,0xBB],
  [0x55,0x66,0x01,0x00,0x00,0x00,0x00,0x16,0xB2,0xA6],
  [0x55,0x66,0x01,0x01,0x00,0x00,0x00,0x06,0x01,0xde,0x31],
  [0x55,0x66,0x01,0x01,0x00,0x00,0x00,0x06,0xff,0x0f,0x3f],
  [0x55,0x66,0x01,0x01,0x00,0x00,0x00,0x0c,0x00,0x34,0xce],
  [0x55,0x66,0x01,0x01,0x00,0x00,0x00,0x0c,0x02,0x76,0xee],
  [0x55,0x66,0x01,0x02,0x00,0x00,0x00,0x07,0x64,0x64,0x3d,0xcf],
  [0x55,0x66,0x01,0x00,0x00,0x00,0x00,0x0a,0x0f,0x75],
  [0x55,0x66,0x01,0x01,0x00,0x00,0x00,0x04,0x01,0xbc,0x57],
  [0x55,0x66,0x01,0x00,0x00,0x00,0x00,0x02,0x07,0xf4],
  [0x55,0x66,0x01,0x00,0x00,0x00,0x00,0x01,0x64,0xc4],
  [0x55,0x66,0x01,0x01,0x00,0x00,0x00,0x0c,0x03,0x57,0xfe],
  [0x55,0x66,0x01,0x01,0x00,0x00,0x00,0x0c,0x04,0xb0,0x8e],
  [0x55,0x66,0x01,0x01,0x00,0x00,0x00,0x0c,0x05,0x91,0x9e],
  [0x55,0x66,0x01,0x00,0x00,0x00,0x00,0x0d,0xe8,0x05],
  [0x55,0x66,0x01,0x01,0x00,0x00,0x00,0x0c,0x06,0xf2,0xae],
  [0x55,0x66,0x01,0x01,0x00,0x00,0x00,0x0c,0x07,0xd3,0xbe],
  [0x55,0x66,0x01,0x01,0x00,0x00,0x00,0x0c,0x08,0x3c,0x4f],
  [0x55,0x66,0x01,0x00,0x00,0x00,0x00,0x15,0xD1,0x96]]

/-- The per-command frame sizes, transcribed from `COMMAND_SIZES` in
src/src/constants.rs. -/
def COMMAND_SIZES : List Nat :=
  [11,12,12,12,12,12,11,11,12,10,11,11,11,11,12,10,11,10,10,11,11,11,10,11,11,11,10]

/-- `NUM_COMMANDS` of src/src/constants.rs. -/
def NUM_COMMANDS : Nat := 27

/-- An i32 table entry read as its two's-complement low byte (how the i32
entries of `COMMANDS` reach the wire as u8). -/
def i32ToByte (x : Int) : Nat := (x % 256).toNat

/-- A canned command row converted to its wire bytes. -/
def commandBytes (cmd : List Int) : List Nat := cmd.map i32ToByte

/-- A 16-bit value as two little-endian bytes. -/
def toLE16 (n : Nat) : List Nat := [n % 256, (n / 256) % 256]

/-- Modelled from the spec: the frame encoder of the control module
(`pub mod control` of src/src/lib.rs) is not present under src/.  Design
document section 4.2: header 0x55 0x66, control byte 0x01, payload length
little-endian 16-bit, sequence little-endian 16-bit fixed placeholder 0,
command id, payload, then the checksum of everything written so far,
little-endian 16-bit. -/
def encode (cmdId : Nat) (payload : List Nat) : List Nat :=
  let pre := [0x55, 0x66, 0x01] ++ toLE16 payload.length ++ toLE16 0
               ++ [cmdId % 256] ++ payload
  pre ++ toLE16 (checksum pre)

/-- The 16-bit little-endian payload-length field at offsets 3-4 of a frame. -/
def frameLenField (f : List Nat) : Nat := f.getD 3 0 + 256 * f.getD 4 0

/-- Whether the final two bytes of a byte buffer, read little-endian, equal
the table-driven CRC-16 of all preceding bytes. -/
def crcTrailerOk (f : List Nat) : Bool :=
  decide (2 ≤ f.length) &&
    (f.getD (f.length - 2) 0 + 256 * f.getD (f.length - 1) 0
      == checksum (f.take (f.length - 2)))

/-- Structural well-formedness of a wire frame: header 0x55 0x66, control
byte 0x01, total length 8 + payload length + 2 with the payload length
declared little-endian at offsets 3-4, and a valid CRC-16 trailer. -/
def wellFormedFrame (f : List Nat) : Bool :=
  (f.getD 0 0 == 0x55) && (f.getD 1 0 == 0x66) && (f.getD 2 0 == 0x01) &&
    decide (10 ≤ f.length) && (f.length == 10 + frameLenField f) && crcTrailerOk f

/-- C1: the canned byte sequence stored for the auto-center command
(entry 0 of the COMMANDS table) is exactly the 11 bytes
0x55 0x66 0x01 0x01 0x00 0x00 0x00 0x08 0x01 0xd1 0x12, i.e. the frame
produced by `encode` for cmd_id 0x08 and payload [0x01], including its
correct CRC-16 trailer. -/
theorem C1_auto_center_known_vector :
    commandBytes (COMMANDS.getD 0 [])
        = [0x55,0x66,0x01,0x01,0x00,0x00,0x00,0x08,0x01,0xd1,0x12]
      ∧ encode 0x08 [0x01]
        = [0x55,0x66,0x01,0x01,0x00,0x00,0x00,0x08,0x01,0xd1,0x12] := by
  constructor <;> rfl

/-- C2: for every index i < 27, the canned command frame COMMANDS[i] (with
negative i32 entries read as two's-complement bytes) is a well-formed wire
frame: header 0x55 0x66, control byte 0x01, little-endian length field at
offsets 3-4 equal to the payload length so that the total length is
8 + payload_len + 2 and equals COMMAND_SIZES[i], which lies between 10 and
13 inclusive, and the trailing two bytes read little-endian equal the
table-driven CRC-16 of the preceding bytes. -/
theorem C2_commands_wellformed :
    ∀ i : Fin 27,
      wellFormedFrame (commandBytes (COMMANDS.getD i.val [])) = true
      ∧ (commandBytes (COMMANDS.getD i.val [])).length = COMMAND_SIZES.getD i.val 0
      ∧ 10 ≤ COMMAND_SIZES.getD i.val 0 ∧ COMMAND_SIZES.getD i.val 0 ≤ 13 := by
  decide

/-- Modelled from the spec: the control module defining `A8MiniAttitude` is
not present under src/.  Design document section 3, Telemetry Sample:
yaw/pitch/roll angles (signed, fixed-point tenths of a degree) and their
angular rates; src/src/main.rs reads fields theta_yaw, theta_pitch,
theta_roll, v_yaw, v_pitch, v_roll.  Six i16 fields, 12 bytes. -/
structure A8MiniAttitude where
  theta_yaw : Int
  theta_pitch : Int
  theta_roll : Int
  v_yaw : Int
  v_pitch : Int
  v_roll : Int
deriving DecidableEq

/-- Modelled from the spec: the control module defining
`A8MiniFirmwareVersion` is not present under src/.  src/src/lib.rs
get_firmware_version decodes it from an 8-byte payload slice; the field
layout is opaque here, so the raw payload bytes are kept. -/
structure A8MiniFirmwareVersion where
  raw : List Nat
deriving DecidableEq

/-- A 16-bit little-endian two's-complement value from two bytes. -/
def i16FromLE (lo hi : Nat) : Int :=
  let v := (lo % 256) + 256 * (hi % 256)
  if v < 32768 then (v : Int) else (v : Int) - 65536

/-- Modelled from the spec: bincode deserialization of `A8MiniAttitude`
(six consecutive little-endian i16 fields); succeeds exactly on a 12-byte
slice. -/
def deserializeAttitude (bytes : List Nat) : Option A8MiniAttitude :=
  if bytes.length = 12 then
    some { theta_yaw := i16FromLE (bytes.getD 0 0) (bytes.getD 1 0)
         , theta_pitch := i16FromLE (bytes.getD 2 0) (bytes.getD 3 0)
         , theta_roll := i16FromLE (bytes.getD 4 0) (bytes.getD 5 0)
         , v_yaw := i16FromLE (bytes.getD 6 0) (bytes.getD 7 0)
         , v_pitch := i16FromLE (bytes.getD 8 0) (bytes.getD 9 0)
         , v_roll := i16FromLE (bytes.getD 10 0) (bytes.getD 11 0) }
  else none

/-- Modelled from the spec: bincode deserialization of
`A8MiniFirmwareVersion` from its 8-byte payload slice; succeeds exactly on
an 8-byte slice. -/
def deserializeFirmware (bytes : List Nat) : Option A8MiniFirmwareVersion :=
  if bytes.length = 8 then some ⟨bytes⟩ else none

/-- Post-receive processing of get_attitude_information (src/src/lib.rs
lines 131-147): reject if the response is shorter than 20 bytes, else
deserialize the slice at indices 8..20. -/
def attitudeFromResponse (response : List Nat) : Option A8MiniAttitude :=
  if response.length < 20 then none
  else deserializeAttitude ((response.drop 8).take 12)

/-- Post-receive processing of get_firmware_version (src/src/lib.rs lines
188-203): reject if the response is shorter than 16 bytes, else
deserialize the slice at indices 8..16. -/
def firmwareFromResponse (response : List Nat) : Option A8MiniFirmwareVersion :=
  if response.length < 16 then none
  else deserializeFirmware ((response.drop 8).take 8)

/-- `RECV_BUFF_SIZE` of src/src/constants.rs: the fixed receive buffer
length of send_command. -/
def RECV_BUFF_SIZE : Nat := 64

/-- Outcome of one datagram send on the command socket. -/
inductive SendOutcome where
  | sockErr
  | sent (n : Nat)
deriving DecidableEq

/-- Outcome of one datagram receive attempt under a timeout. -/
inductive RecvOutcome where
  | timeoutExpired
  | sockErr
  | datagram (bytes : List Nat)
deriving DecidableEq

/-- The transport errors surfaced by send_command_blind / send_command
(src/src/lib.rs): socket failure on send, zero bytes reported sent,
receive timeout, socket failure on receive, zero bytes received. -/
inductive TransportError where
  | sendSocketFailed
  | sendZeroBytes
  | timeout
  | recvSocketFailed
  | recvEmpty
deriving DecidableEq

/-- send_command_blind (src/src/lib.rs lines 83-99): propagate a socket
send error, report an error when zero bytes were sent, otherwise Ok.
No receive is attempted and no retry is performed. -/
def sendCommandBlindModel : SendOutcome → Except TransportError Unit
  | .sockErr => .error .sendSocketFailed
  | .sent 0 => .error .sendZeroBytes
  | .sent (_ + 1) => .ok ()

/-- The fixed 64-byte receive buffer after one recv of a datagram: the
first min(len, 64) bytes of the datagram, zero-filled to 64 bytes. -/
def padTo64 (d : List Nat) : List Nat :=
  d.take 64 ++ List.replicate (64 - d.length) 0

/-- send_command (src/src/lib.rs lines 102-128): send_command_blind, then
one receive under RECV_TIMEOUT; a timeout or a receive socket error is
propagated, zero bytes received is an error, otherwise the entire
fixed-size buffer (received bytes zero-padded to 64) is returned. -/
def sendCommandModel (s : SendOutcome) (r : RecvOutcome) :
    Except TransportError (List Nat) :=
  match sendCommandBlindModel s with
  | .error e => .error e
  | .ok () =>
    match r with
    | .timeoutExpired => .error .timeout
    | .sockErr => .error .recvSocketFailed
    | .datagram d =>
      if d.length = 0 then .error .recvEmpty
      else .ok (padTo64 d)

/-- One event seen by a receive loop iteration: the 50 ms timeout elapsed,
the receive returned a socket error, or a datagram arrived. -/
inductive StreamEvent where
  | timeoutExpired
  | sockErr
  | datagram (bytes : List Nat)
deriving DecidableEq

/-- The emit decision of one stream_attitude_data iteration on a received
datagram (src/src/lib.rs lines 163-175): the datagram lands in a 128-byte
buffer, and a sample is decoded from bytes 8..20 exactly when the received
length is at least 20 and byte 7 equals 0x0D. -/
def streamDatagramSample (d : List Nat) : Option A8MiniAttitude :=
  if 20 ≤ (d.take 128).length ∧ (d.take 128).getD 7 0 = 0x0D then
    deserializeAttitude (((d.take 128).drop 8).take 12)
  else none

/-- The sample produced by one stream_attitude_data iteration for one
event: timeouts and receive errors produce nothing (src/src/lib.rs line
177, the wildcard arm). -/
def streamEventSample : StreamEvent → Option A8MiniAttitude
  | .datagram d => streamDatagramSample d
  | _ => none

/-- The stream_attitude_data loop (src/src/lib.rs lines 159-182) run over
a finite prefix of events.  `alive` is whether the consumer still holds
the receiver: a decoded sample is sent into the channel, and a failed send
(receiver dropped) breaks the loop.  Returns the samples delivered and
whether the loop broke. -/
def streamRun (alive : Bool) : List StreamEvent → List A8MiniAttitude × Bool
  | [] => ([], false)
  | e :: rest =>
    match streamEventSample e with
    | none => streamRun alive rest
    | some a =>
      if alive then
        let out := streamRun alive rest
        (a :: out.1, out.2)
      else ([], true)

/-- The channel capacity of stream_attitude_data (src/src/lib.rs line 151:
`mpsc::channel(100)`). -/
def channelCapacity : Nat := 100

/-- `max_failure_threshold` of the LogAttitudeStream loop
(src/src/main.rs line 132). -/
def maxFailureThreshold : Nat := 10

/-- How the LogAttitudeStream polling loop of src/src/main.rs ended:
a receive timeout propagated as a fatal error through main (lines
142-149), the failure-count break (lines 183-186), or the supplied events
ran out with the loop still running. -/
inductive MainExit where
  | fatalTimeout
  | thresholdBreak
  | stillRunning
deriving DecidableEq

/-- Result of running the LogAttitudeStream polling loop over a finite
prefix of events: emitted samples in order, final failure count, and how
the loop ended. -/
structure MainRunResult where
  samples : List A8MiniAttitude
  failureCount : Nat
  exit : MainExit
deriving DecidableEq

/-- The LogAttitudeStream polling loop body (src/src/main.rs lines
135-195), one step per event: a timeout is propagated fatally by the `?`
operator; a receive socket error increments the failure count and breaks
once the count reaches the threshold; a datagram is decoded under the same
length/command-id guard as the stream (lines 154-157) and never touches
the failure count. -/
def mainLoopGo (threshold : Nat) :
    List StreamEvent → Nat → List A8MiniAttitude → MainRunResult
  | [], fc, acc => ⟨acc.reverse, fc, .stillRunning⟩
  | .timeoutExpired :: _, fc, acc => ⟨acc.reverse, fc, .fatalTimeout⟩
  | .sockErr :: rest, fc, acc =>
    if threshold ≤ fc + 1 then ⟨acc.reverse, fc + 1, .thresholdBreak⟩
    else mainLoopGo threshold rest (fc + 1) acc
  | .datagram d :: rest, fc, acc =>
    match streamDatagramSample d with
    | some a => mainLoopGo threshold rest fc (a :: acc)
    | none => mainLoopGo threshold rest fc acc

/-- The LogAttitudeStream polling loop started with failure count 0 and no
samples. -/
def mainLoopRun (threshold : Nat) (events : List StreamEvent) : MainRunResult :=
  mainLoopGo threshold events 0 []

/-- Whether an event is a receive socket error (the only kind the main
loop counts toward its threshold). -/
def isSockErrEvent : StreamEvent → Bool
  | .sockErr => true
  | _ => false

/-- Whether an event is an expired receive timeout. -/
def isTimeoutEvent : StreamEvent → Bool
  | .timeoutExpired => true
  | _ => false

/-- The connect_yapping retry loop body (src/src/lib.rs lines 38-43):
`n` remaining loop iterations, `k` attempts already made; each iteration
makes one connect attempt (success given by `succ k`) and returns Ok on
the first success.  Returns whether it succeeded and the total number of
attempts made. -/
def connectYappingGo (succ : Nat → Bool) : Nat → Nat → Bool × Nat
  | 0, k => (false, k)
  | n + 1, k => if succ k then (true, k + 1) else connectYappingGo succ n (k + 1)

/-- connect_yapping (src/src/lib.rs lines 35-46): iterates `for _ in
1..max_iter`, i.e. (max_iter - 1) clamped to zero iterations, each making
one connect attempt, and returns the "max_iter reached" error (here
`false`) when no attempt succeeded. -/
def connectYappingRun (maxIter : Int) (succ : Nat → Bool) : Bool × Nat :=
  connectYappingGo succ (maxIter - 1).toNat 0

/-- A concrete valid attitude datagram: 22 bytes, command id byte 0x0D at
index 7, payload bytes at 8..20. -/
def validAttitudeGram : List Nat :=
  [0x55,0x66,0x01,0x0C,0x00,0x00,0x00,0x0D,10,0,20,0,30,0,1,0,2,0,3,0,0x0,0x0]

/-- The sample decoded from `validAttitudeGram`. -/
def validAttitudeSample : A8MiniAttitude := ⟨10, 20, 30, 1, 2, 3⟩

/-- A concrete invalid datagram: too short to decode. -/
def shortGram : List Nat := [0x55, 0x66]

/-- A concrete invalid datagram: 20 bytes but a non-attitude command id at
index 7. -/
def wrongIdGram : List Nat :=
  [0x55,0x66,0x01,0x0C,0x00,0x00,0x00,0x16,0,0,0,0,0,0,0,0,0,0,0,0]

/-- A concrete 22-byte attitude-shaped frame whose CRC-16 trailer (0x0000)
disagrees with the checksum of its first 20 bytes. -/
def badCrcFrame : List Nat :=
  [0x55,0x66,0x01,0x0C,0x00,0x00,0x00,0x0D,1,0,2,0,3,0,4,0,5,0,6,0,0x0,0x0]

theorem deserializeAttitude_isSome (bytes : List Nat) :
    (deserializeAttitude bytes).isSome = true ↔ bytes.length = 12 := by
  unfold deserializeAttitude
  split <;> simp_all

theorem streamDatagramSample_isSome (d : List Nat) :
    (streamDatagramSample d).isSome = true
      ↔ (20 ≤ (d.take 128).length ∧ (d.take 128).getD 7 0 = 0x0D) := by
  unfold streamDatagramSample
  split
  next h =>
    have hlen : (((d.take 128).drop 8).take 12).length = 12 := by
      have h1 := h.1
      simp only [List.length_take] at h1
      simp only [List.length_take, List.length_drop]
      omega
    constructor
    · intro _; exact h
    · intro _
      rw [deserializeAttitude_isSome]
      exact hlen
  next h =>
    simp only [Option.isSome_none, Bool.false_eq_true, false_iff]
    exact h

theorem attitudeFromResponse_isSome (r : List Nat) :
    (attitudeFromResponse r).isSome = true ↔ 20 ≤ r.length := by
  unfold attitudeFromResponse
  split
  next h =>
    simp only [Option.isSome_none, Bool.false_eq_true, false_iff]
    omega
  next h =>
    have hlen : ((r.drop 8).take 12).length = 12 := by
      simp only [List.length_take, List.length_drop]
      omega
    simp only [deserializeAttitude_isSome, hlen, true_iff]
    omega

theorem firmwareFromResponse_isSome (r : List Nat) :
    (firmwareFromResponse r).isSome = true ↔ 16 ≤ r.length := by
  unfold firmwareFromResponse
  split
  next h =>
    simp only [Option.isSome_none, Bool.false_eq_true, false_iff]
    omega
  next h =>
    have hlen : ((r.drop 8).take 8).length = 8 := by
      simp only [List.length_take, List.length_drop]
      omega
    simp only [deserializeFirmware, hlen, if_pos, Option.isSome_some, true_iff]
    omega

/-- C3: for every received response buffer, checksum and declared-length
validation are claimed to be performed before the typed decoder runs; in
particular a buffer whose trailing CRC-16 field disagrees with the CRC of
the preceding bytes should never decode.  Counterexample: `badCrcFrame`
has a mismatching CRC trailer, yet both the stream_attitude_data path and
the get_attitude_information path decode it into an attitude value. -/
theorem C3_counterexample_crc_ignored :
    crcTrailerOk badCrcFrame = false
    ∧ (streamEventSample (StreamEvent.datagram badCrcFrame)).isSome = true
    ∧ (attitudeFromResponse (padTo64 badCrcFrame)).isSome = true := by
  refine ⟨by decide, by decide, by decide⟩

/-- C3 amended: no CRC validation is performed on received buffers.
stream_attitude_data decodes exactly when the received length is at least
20 and byte 7 is 0x0D; get_attitude_information decodes exactly when the
response length is at least 20; get_firmware_version decodes exactly when
it is at least 16.  Decoding is fully determined by these guards and is
independent of the CRC trailer. -/
theorem C3_amended_guards_only :
    (∀ d : List Nat,
        (streamEventSample (StreamEvent.datagram d)).isSome = true
          ↔ (20 ≤ (d.take 128).length ∧ (d.take 128).getD 7 0 = 0x0D))
    ∧ (∀ r : List Nat, (attitudeFromResponse r).isSome = true ↔ 20 ≤ r.length)
    ∧ (∀ r : List Nat, (firmwareFromResponse r).isSome = true ↔ 16 ≤ r.length) :=
  ⟨fun d => streamDatagramSample_isSome d,
   fun r => attitudeFromResponse_isSome r,
   fun r => firmwareFromResponse_isSome r⟩

/-- C4: the telemetry stream emits a decoded sample for a received
datagram exactly when its length is at least 20, its byte at index 7 is
the attitude command id 0x0D, and the 12 payload bytes at indices 8..20
deserialize; and fed 9 dropped/invalid datagrams followed by 1 valid
attitude datagram the stream stays running and emits exactly one sample. -/
theorem C4_stream_emit_iff_and_scenario :
    (∀ d : List Nat,
        (streamEventSample (StreamEvent.datagram d)).isSome = true
          ↔ (20 ≤ (d.take 128).length ∧ (d.take 128).getD 7 0 = 0x0D
              ∧ (deserializeAttitude (((d.take 128).drop 8).take 12)).isSome = true))
    ∧ streamRun true
        (List.replicate 5 (StreamEvent.datagram shortGram)
          ++ List.replicate 4 (StreamEvent.datagram wrongIdGram)
          ++ [StreamEvent.datagram validAttitudeGram])
      = ([validAttitudeSample], false) := by
  constructor
  · intro d
    rw [show streamEventSample (StreamEvent.datagram d) = streamDatagramSample d from rfl,
        streamDatagramSample_isSome]
    constructor
    · rintro ⟨h1, h2⟩
      refine ⟨h1, h2, ?_⟩
      rw [deserializeAttitude_isSome]
      simp only [List.length_take] at h1
      simp only [List.length_take, List.length_drop]
      omega
    · rintro ⟨h1, h2, _⟩
      exact ⟨h1, h2⟩
  · decide

theorem mainLoopGo_exhausts (threshold : Nat) (events : List StreamEvent) :
    ∀ (fc : Nat) (acc : List A8MiniAttitude),
      StreamEvent.timeoutExpired ∉ events →
      fc + events.countP isSockErrEvent < threshold →
      (mainLoopGo threshold events fc acc).exit = MainExit.stillRunning := by
  induction events with
  | nil => intro fc acc _ _; rfl
  | cons e rest ih =>
    intro fc acc hmem hcount
    have hmem' : StreamEvent.timeoutExpired ∉ rest :=
      fun h => hmem (List.mem_cons_of_mem _ h)
    cases e with
    | timeoutExpired => exact absurd (List.mem_cons_self _ _) hmem
    | sockErr =>
      have hc : fc + 1 + rest.countP isSockErrEvent < threshold := by
        simp [List.countP_cons, isSockErrEvent] at hcount
        omega
      rw [mainLoopGo, if_neg (by omega)]
      exact ih (fc + 1) acc hmem' hc
    | datagram d =>
      have hc : fc + rest.countP isSockErrEvent < threshold := by
        simp [List.countP_cons, isSockErrEvent] at hcount
        omega
      rw [mainLoopGo]
      cases hs : streamDatagramSample d with
      | some a => exact ih fc (a :: acc) hmem' hc
      | none => exact ih fc acc hmem' hc

theorem mainLoopGo_datagrams (threshold : Nat) (ds : List (List Nat)) :
    ∀ (fc : Nat) (acc : List A8MiniAttitude),
      (mainLoopGo threshold (ds.map StreamEvent.datagram) fc acc).exit
          = MainExit.stillRunning
      ∧ (mainLoopGo threshold (ds.map StreamEvent.datagram) fc acc).failureCount = fc := by
  induction ds with
  | nil => intro fc acc; exact ⟨rfl, rfl⟩
  | cons d rest ih =>
    intro fc acc
    rw [List.map_cons, mainLoopGo]
    cases hs : streamDatagramSample d with
    | some a => exact ih fc (a :: acc)
    | none => exact ih fc acc

/-- C5: the claim says the telemetry polling loop terminates exactly when
the count of consecutive receive timeouts/errors reaches the failure
threshold and never terminates on fewer receive failures.  Counterexamples:
a single receive timeout terminates the loop at once (failure count 0,
far below the threshold 10), and ten receive errors interleaved with
successful datagrams (never two consecutive failures) also terminate it. -/
theorem C5_counterexample_early_exit :
    mainLoopRun 10 [StreamEvent.timeoutExpired]
        = ⟨[], 0, MainExit.fatalTimeout⟩
    ∧ (mainLoopRun 10
        ((List.replicate 9
            [StreamEvent.sockErr, StreamEvent.datagram validAttitudeGram]).flatten
          ++ [StreamEvent.sockErr])).exit = MainExit.thresholdBreak := by
  refine ⟨by decide, by decide⟩

/-- C5 amended: in the polling loop a receive timeout is immediately fatal
(the error is propagated after a single timeout, regardless of the
threshold); non-timeout receive errors increment a cumulative failure
count that successful receives never reset, and the loop breaks with a
terminal message when that count reaches the threshold 10 — ten receive
errors with threshold 10 terminate it with zero samples emitted; with no
timeout and fewer than 10 receive errors it keeps running; invalid or
dropped datagrams never count toward the threshold. -/
theorem C5_amended_failure_accounting :
    mainLoopRun 10 (List.replicate 10 StreamEvent.sockErr)
        = ⟨[], 10, MainExit.thresholdBreak⟩
    ∧ (∀ rest : List StreamEvent,
        (mainLoopRun 10 (StreamEvent.timeoutExpired :: rest)).exit
          = MainExit.fatalTimeout)
    ∧ (∀ events : List StreamEvent,
        StreamEvent.timeoutExpired ∉ events →
        events.countP isSockErrEvent < 10 →
        (mainLoopRun 10 events).exit = MainExit.stillRunning)
    ∧ (∀ ds : List (List Nat),
        (mainLoopRun 10 (ds.map StreamEvent.datagram)).exit = MainExit.stillRunning
        ∧ (mainLoopRun 10 (ds.map StreamEvent.datagram)).failureCount = 0) := by
  refine ⟨by decide, fun rest => rfl, fun events h1 h2 => ?_, fun ds => ?_⟩
  · exact mainLoopGo_exhausts 10 events 0 [] h1 (by omega)
  · exact mainLoopGo_datagrams 10 ds 0 []

/-- C5 amended, witness: the loop keeps running on one receive error and
one invalid datagram. -/
theorem C5_amended_failure_accounting_witness :
    (mainLoopRun 10 [StreamEvent.sockErr, StreamEvent.datagram shortGram]).exit
        = MainExit.stillRunning :=
  C5_amended_failure_accounting.2.2.1
    [StreamEvent.sockErr, StreamEvent.datagram shortGram] (by decide) (by decide)

/-- C6: send_command performs exactly one receive attempt under its
deadline: an expired timeout yields the Timeout error, a zero-byte receive
yields the RecvEmpty-style error, and otherwise the received buffer is
returned.  No retry is modelled — the operation consumes a single receive
outcome. -/
theorem C6_send_command_deadline :
    (∀ n : Nat,
        sendCommandModel (SendOutcome.sent (n + 1)) RecvOutcome.timeoutExpired
          = Except.error TransportError.timeout)
    ∧ (∀ n : Nat,
        sendCommandModel (SendOutcome.sent (n + 1)) (RecvOutcome.datagram [])
          = Except.error TransportError.recvEmpty)
    ∧ (∀ (n : Nat) (d : List Nat), d ≠ [] →
        sendCommandModel (SendOutcome.sent (n + 1)) (RecvOutcome.datagram d)
          = Except.ok (padTo64 d)) := by
  refine ⟨fun n => rfl, fun n => rfl, fun n d hd => ?_⟩
  unfold sendCommandModel sendCommandBlindModel
  simp [List.length_eq_zero, hd]

/-- C6, witness: a one-byte datagram within the deadline is returned. -/
theorem C6_send_command_deadline_witness :
    sendCommandModel (SendOutcome.sent 1) (RecvOutcome.datagram [0x55])
        = Except.ok (padTo64 [0x55]) :=
  C6_send_command_deadline.2.2 0 [0x55] (by decide)

/-- C7: send_command_blind fails exactly when the socket send fails or
reports zero bytes sent; when at least one byte is reported sent it
returns Ok.  The model performs no receive and no retry: it consumes only
the one send outcome. -/
theorem C7_send_blind_cases :
    sendCommandBlindModel SendOutcome.sockErr
        = Except.error TransportError.sendSocketFailed
    ∧ sendCommandBlindModel (SendOutcome.sent 0)
        = Except.error TransportError.sendZeroBytes
    ∧ (∀ n : Nat, sendCommandBlindModel (SendOutcome.sent (n + 1)) = Except.ok ()) :=
  ⟨rfl, rfl, fun _ => rfl⟩

theorem padTo64_length (d : List Nat) : (padTo64 d).length = 64 := by
  simp only [padTo64, List.length_append, List.length_take, List.length_replicate]
  omega

/-- C8: on success send_command returns the entire fixed 64-byte receive
buffer, zero-filled past the received datagram, discarding the received
length; hence the `response.len() < 20` guard of get_attitude_information
(and the `< 16` guard of get_firmware_version) is always false and a
truncated reply is decoded from zero-padding rather than rejected. -/
theorem C8_full_buffer_guards_unreachable :
    ∀ (s : SendOutcome) (d buf : List Nat),
      sendCommandModel s (RecvOutcome.datagram d) = Except.ok buf →
      buf.length = RECV_BUFF_SIZE
      ∧ ¬ buf.length < 20
      ∧ ¬ buf.length < 16
      ∧ (attitudeFromResponse buf).isSome = true
      ∧ (firmwareFromResponse buf).isSome = true := by
  intro s d buf h
  have hbuf : buf = padTo64 d := by
    cases s with
    | sockErr => exact absurd h (by simp [sendCommandModel, sendCommandBlindModel])
    | sent n =>
      cases n with
      | zero => exact absurd h (by simp [sendCommandModel, sendCommandBlindModel])
      | succ m =>
        simp only [sendCommandModel, sendCommandBlindModel] at h
        by_cases hd : d.length = 0
        · rw [if_pos hd] at h; exact Except.noConfusion h
        · rw [if_neg hd] at h
          exact (Except.ok.inj h).symm
  subst hbuf
  have hlen := padTo64_length d
  refine ⟨hlen, by omega, by omega, ?_, ?_⟩
  · rw [attitudeFromResponse_isSome]; omega
  · rw [firmwareFromResponse_isSome]; omega

/-- C8, witness: a 2-byte truncated reply is padded to 64 bytes and still
decodes. -/
theorem C8_full_buffer_guards_unreachable_witness :
    (padTo64 [0x55, 0x66]).length = RECV_BUFF_SIZE
    ∧ ¬ (padTo64 [0x55, 0x66]).length < 20
    ∧ ¬ (padTo64 [0x55, 0x66]).length < 16
    ∧ (attitudeFromResponse (padTo64 [0x55, 0x66])).isSome = true
    ∧ (firmwareFromResponse (padTo64 [0x55, 0x66])).isSome = true :=
  C8_full_buffer_guards_unreachable (SendOutcome.sent 1) [0x55, 0x66]
    (padTo64 [0x55, 0x66]) (by rfl)

theorem streamRun_dead (events : List StreamEvent) :
    (streamRun false events).1 = []
    ∧ ((streamRun false events).2 = true
        ↔ ∃ e ∈ events, (streamEventSample e).isSome = true) := by
  induction events with
  | nil => simp [streamRun]
  | cons e rest ih =>
    cases hs : streamEventSample e with
    | none => simpa [streamRun, hs] using ih
    | some a => simp [streamRun, hs]

theorem streamRun_alive (events : List StreamEvent) :
    (streamRun true events).2 = false
    ∧ (streamRun true events).1 = events.filterMap streamEventSample := by
  induction events with
  | nil => simp [streamRun]
  | cons e rest ih =>
    cases hs : streamEventSample e with
    | none => simpa [streamRun, hs, List.filterMap_cons, hs] using ih
    | some a => simpa [streamRun, hs, List.filterMap_cons, hs] using ih

/-- C9: stream_attitude_data publishes through a bounded channel of
capacity exactly 100; while the consumer holds the receiver every decoded
sample is delivered in order and the loop never breaks, and once the
receiver is dropped no sample is ever emitted again and the loop
terminates exactly at its next send attempt (the first subsequent decoded
sample). -/
theorem C9_bounded_channel_and_drop :
    channelCapacity = 100
    ∧ (∀ events : List StreamEvent, (streamRun false events).1 = [])
    ∧ (∀ events : List StreamEvent,
        (streamRun false events).2 = true
          ↔ ∃ e ∈ events, (streamEventSample e).isSome = true)
    ∧ (∀ events : List StreamEvent,
        (streamRun true events).2 = false
        ∧ (streamRun true events).1 = events.filterMap streamEventSample) :=
  ⟨rfl, fun es => (streamRun_dead es).1, fun es => (streamRun_dead es).2,
   fun es => streamRun_alive es⟩

theorem connectYappingGo_attempts_le (succ : Nat → Bool) (n : Nat) :
    ∀ k : Nat, (connectYappingGo succ n k).2 ≤ k + n := by
  induction n with
  | zero => intro k; simp [connectYappingGo]
  | succ m ih =>
    intro k
    rw [connectYappingGo]
    by_cases hs : succ k
    · rw [if_pos hs]; omega
    · rw [if_neg hs]
      have := ih (k + 1)
      omega

theorem connectYappingGo_all_fail (n : Nat) :
    ∀ k : Nat, connectYappingGo (fun _ => false) n k = (false, k + n) := by
  induction n with
  | zero => intro k; simp [connectYappingGo]
  | succ m ih =>
    intro k
    rw [connectYappingGo, if_neg (by simp)]
    rw [ih (k + 1)]
    have : k + 1 + m = k + (m + 1) := by omega
    rw [this]

/-- C10: connect_yapping iterates over the range 1..max_iter, so it makes
at most max_iter - 1 connection attempts (with always-failing attempts it
makes exactly (max_iter - 1).toNat) before returning the "max_iter
reached" error, and for max_iter ≤ 1 it makes no attempt at all and
always returns that error — despite its documentation stating it tries a
total of max_iter times. -/
theorem C10_connect_yapping_off_by_one :
    (∀ (maxIter : Int) (succ : Nat → Bool),
        (connectYappingRun maxIter succ).2 ≤ (maxIter - 1).toNat)
    ∧ (∀ maxIter : Int,
        connectYappingRun maxIter (fun _ => false) = (false, (maxIter - 1).toNat))
    ∧ (∀ (maxIter : Int) (succ : Nat → Bool), maxIter ≤ 1 →
        connectYappingRun maxIter succ = (false, 0)) := by
  refine ⟨fun mi succ => ?_, fun mi => ?_, fun mi succ h => ?_⟩
  · show (connectYappingGo succ (mi - 1).toNat 0).2 ≤ (mi - 1).toNat
    have hgo := connectYappingGo_attempts_le succ (mi - 1).toNat 0
    rw [Nat.zero_add] at hgo
    exact hgo
  · show connectYappingGo (fun _ => false) (mi - 1).toNat 0 = (false, (mi - 1).toNat)
    have hgo := connectYappingGo_all_fail (mi - 1).toNat 0
    rw [Nat.zero_add] at hgo
    exact hgo
  · unfold connectYappingRun
    rw [Int.toNat_eq_zero.mpr (by omega)]
    rfl

/-- C10, witness: with max_iter = 1 no attempt is made even when every
attempt would succeed, and the error is returned. -/
theorem C10_connect_yapping_off_by_one_witness :
    connectYappingRun 1 (fun _ => true) = (false, 0) :=
  C10_connect_yapping_off_by_one.2.2 1 (fun _ => true) (by decide)
